import Mathlib

/-!
# Verification of the open-court-data-india ingestion pipeline

A shallow embedding, in Lean 4, of the parts of the `open-court-data-india`
repository that its specification makes claims about:

* `DBConnector` (`src/db/connector.py`): `create_cause_list`, `create_case`,
  `get_or_create_tag`, `get_bench_id`, `create_bench`,
  `get_available_dates`, `get_cause_lists_by_date`;
* `BaseScraper.download_file` (`src/utils/scraper_utils.py`);
* `DelhiHCScraper.is_likely_cause_list` (`src/scrapers/delhi_hc/delhi_hc_scraper.py`);
* `CauseListProcessor._extract_structured_data`, `process_pdf` and
  `_store_data_in_db` (`src/utils/data_processor.py`);
* the helpers they use from `src/utils/common.py` (`clean_filename`) and the
  Python standard library (`urlparse(...).path`, `os.path.basename`,
  `os.path.splitext`, `str.strip`, `str.lower`, the specific `re` patterns
  appearing in the source).

Modelling conventions:

* Python strings are `String`; `str.lower` is ASCII lowering (the source only
  uses ASCII keywords and URLs).
* Dynamically-typed Python/JSON values are the inductive `J`; operations that
  can raise (`len`, `[]`, `in`, `.get`, `.append`, iteration) return
  `Except PyErr _` so that the source's `try/except` structure is explicit.
* The external JSON parser (`json.loads`), the Gemini responses and the HTTP
  responses are oracles passed as function arguments; theorems quantify over
  them.
* The database is an in-memory record of tables; SQL statements are modelled
  by the corresponding pure queries/updates, with surrogate ids drawn from a
  single allocator.  Query execution itself is assumed to succeed (connection
  failures are an environment condition outside the embedded logic).
* Content hashes (`hashlib.md5`) are modelled as an ideal collision-free
  digest, i.e. the hashed text itself.
-/

/-! ## Python string semantics -/

/-- Python's `\s` class (and the characters `str.strip()` removes, restricted
to ASCII): space, tab, newline, carriage return, vertical tab, form feed. -/
def pyIsSpace (c : Char) : Bool :=
  c = ' ' || c = '\t' || c = '\n' || c = '\r' || c = '\x0b' || c = '\x0c'

/-- Python `str.strip()` (no argument): remove whitespace from both ends. -/
def pyStrip (s : String) : String :=
  ⟨(s.data.dropWhile pyIsSpace).reverse.dropWhile pyIsSpace |>.reverse⟩

/-- Python `str.strip('.')`: remove dots from both ends. -/
def pyStripDots (s : String) : String :=
  ⟨(s.data.dropWhile (· = '.')).reverse.dropWhile (· = '.') |>.reverse⟩

/-- Python `str.lower()` (ASCII; the source only lowers ASCII text). -/
def pyLower (s : String) : String := ⟨s.data.map Char.toLower⟩

/-- Python `str.upper()` (ASCII). -/
def pyUpper (s : String) : String := ⟨s.data.map Char.toUpper⟩

/-- Substring containment on character lists. -/
def infixOfCh (needle : List Char) : List Char → Bool
  | [] => needle.isPrefixOf []
  | c :: cs => needle.isPrefixOf (c :: cs) || infixOfCh needle cs

/-- Python `needle in haystack` for strings: substring containment. -/
def pyIn (needle haystack : String) : Bool :=
  infixOfCh needle.data haystack.data

/-- `os.path.basename`: the part of a path after the last `/`. -/
def osBasename (p : String) : String :=
  ⟨(p.data.reverse.takeWhile (· ≠ '/')).reverse⟩

/-- Helper for `osSplitext`: index (from the start) of the last dot of the
list, if any. -/
def lastDotIdx : List Char → Option Nat
  | [] => none
  | c :: cs =>
    match lastDotIdx cs with
    | some i => some (i + 1)
    | none => if c = '.' then some 0 else none

/-- `os.path.splitext` (POSIX): split off the extension at the last dot of the
basename, unless every character of the basename before that dot is a dot
(so `.bashrc` has no extension). -/
def osSplitext (p : String) : String × String :=
  let base := (osBasename p).data
  match lastDotIdx base with
  | none => (p, "")
  | some d =>
    if (base.take d).any (· ≠ '.') then
      (⟨p.data.take (p.data.length - (base.length - d))⟩, ⟨base.drop d⟩)
    else
      (p, "")

/-- The `path` component of `urllib.parse.urlparse`: drop the fragment (after
`#`) and query (after `?`); drop a leading `scheme:`; if the remainder starts
with `//`, drop the network-location part up to the next `/` (yielding `""`
when there is no further `/`). -/
def urlparsePath (url : String) : String :=
  let s : List Char := (url.data.takeWhile (· ≠ '#')).takeWhile (· ≠ '?')
  let beforeColon : List Char := s.takeWhile (· ≠ ':')
  let hasScheme : Bool :=
    beforeColon.length < s.length && beforeColon.length > 0 &&
      beforeColon.all (fun c => c.isAlpha || c.isDigit || c = '+' || c = '-' || c = '.') &&
      (beforeColon.headD ' ').isAlpha
  let s : List Char := if hasScheme then (s.dropWhile (· ≠ ':')).drop 1 else s
  if s.take 2 = ['/', '/'] then
    String.mk ((s.drop 2).dropWhile (· ≠ '/'))
  else String.mk s

/-- `clean_filename` from `src/utils/common.py`: replace `<>:"/\|?*` by `_`,
strip whitespace then dots from both ends, and cap the length at 255
characters, preserving the extension. -/
def clean_filename (filename : String) : String :=
  let invalid := ['<', '>', ':', '"', '/', '\\', '|', '?', '*']
  let f : String := ⟨filename.data.map (fun c => if c ∈ invalid then '_' else c)⟩
  let f := pyStripDots (pyStrip f)
  if f.length > 255 then
    let (base, ext) := osSplitext f
    (if ext.length ≤ 255 then String.mk (base.data.take (255 - ext.length))
     else String.mk (base.data.take (base.data.length - (ext.length - 255)))) ++ ext
  else f

example : pyStrip "  a b \n" = "a b" := by decide
example : pyIn "help" "self-help desk" = true := by decide
example : pyIn "help" "nothing" = false := by decide
example : osBasename "/a/b/c.pdf" = "c.pdf" := by decide
example : osSplitext "/a/b/c.pdf" = ("/a/b/c", ".pdf") := by decide
example : osSplitext "/a/b/.bashrc" = ("/a/b/.bashrc", "") := by decide
example : osSplitext "archive.tar.gz" = ("archive.tar", ".gz") := by decide
example : urlparsePath "https://delhihighcourt.nic.in/help/x.pdf?q=1#f" = "/help/x.pdf" := by decide
example : urlparsePath "https://host" = "" := by decide
example : urlparsePath "/plain/path.pdf" = "/plain/path.pdf" := by decide
example : clean_filename " a:b.pdf " = "a_b.pdf" := by decide

/-! ## Models of the specific `re` patterns used by the source -/

/-- Consume exactly `n` digits from the front of the list, returning the rest. -/
def dropDigits : Nat → List Char → Option (List Char)
  | 0, l => some l
  | n + 1, c :: cs => if c.isDigit then dropDigits n cs else none
  | _ + 1, [] => none

/-- A `[-_.]` separator at the head of the list. -/
def dropSep : List Char → Option (List Char)
  | c :: cs => if c = '-' || c = '_' || c = '.' then some cs else none
  | [] => none

/-- Whether `\d{a}[-_.]\d{b}[-_.]\d{c}` matches at the head of the list. -/
def dateTripleAt (a b c : Nat) (l : List Char) : Bool :=
  (do
    let l ← dropDigits a l
    let l ← dropSep l
    let l ← dropDigits b l
    let l ← dropSep l
    let _ ← dropDigits c l
    pure ()).isSome

/-- Whether either alternative of the date pattern
`\d{1,2}[-_.]\d{1,2}[-_.]\d{2,4}|\d{2,4}[-_.]\d{1,2}[-_.]\d{1,2}`
matches at the head of the list. -/
def dateAltAt (l : List Char) : Bool :=
  ([1, 2].any fun a => [1, 2].any fun b => [2, 3, 4].any fun c => dateTripleAt a b c l) ||
  ([2, 3, 4].any fun a => [1, 2].any fun b => [1, 2].any fun c => dateTripleAt a b c l)

/-- Does `p` hold at some suffix of `l`? -/
def anySuffix (p : List Char → Bool) : List Char → Bool
  | [] => p []
  | c :: cs => p (c :: cs) || anySuffix p cs

/-- `re.search` (as a boolean) for the date pattern of `is_likely_cause_list`. -/
def hasDatePattern (s : String) : Bool := anySuffix dateAltAt s.data

/-- `re.search(r'\d{8,}', s)` as a boolean: some run of at least 8 digits. -/
def hasLongDigitRun (s : String) : Bool :=
  anySuffix (fun l => (dropDigits 8 l).isSome) s.data

/-- `re.match(r'^[0-9]+$', s)` as a boolean: a non-empty all-digit string,
where `$` also matches just before one trailing newline. -/
def matchesAllDigits (s : String) : Bool :=
  let l := if s.data.getLast? = some '\n' then s.data.take (s.data.length - 1) else s.data
  !l.isEmpty && l.all (·.isDigit)

example : hasDatePattern "list 12.06.2024 final" = true := by decide
example : hasDatePattern "no dates here" = false := by decide
example : hasLongDigitRun "doc_20240612x" = true := by decide
example : hasLongDigitRun "doc_2024" = false := by decide
example : matchesAllDigits "20240612" = true := by decide
example : matchesAllDigits "2024a" = false := by decide

/-! ## The link classifier (`DelhiHCScraper.is_likely_cause_list`) -/

/-- `DelhiHCScraper.CAUSE_LIST_KEYWORDS`. -/
def CAUSE_LIST_KEYWORDS : List String :=
  ["cause list", "causelist", "cause-list",
   "daily list", "daily-list", "dailylist",
   "court no", "court-no", "courtno",
   "court-wise", "courtwise",
   "daily cause list", "advance cause list",
   "supplementary cause list", "supplementary list",
   "case wise", "case-wise", "fir no wise", "fir-no-wise",
   "impugned order wise"]

/-- `DelhiHCScraper.NON_CAUSE_LIST_KEYWORDS`. -/
def NON_CAUSE_LIST_KEYWORDS : List String :=
  ["help", "manual", "guide", "instruction", "rule",
   "notification", "circular", "notice", "vc rule",
   "video conferencing", "sop", "procedure", "portal",
   "login", "register", "sign in", "sign up", "feedback",
   "contact", "about", "faq", "disclaimer", "privacy",
   "terms", "conditions", "copyright"]

/-- The classifier's confidence values, which in the source are the float
literals 0.9, 0.8, 0.7, 0.6, 0.5, 0.3, are all exact tenths; they are
represented here in fixed point as the number of tenths (9, 8, 7, 6, 5, 3),
which is faithful to the exact decimal literals while staying kernel-
computable. -/
abbrev Confidence := Nat

/-- The first loop of `is_likely_cause_list`: for each non-cause-list keyword
in order, check the lowered title, then the lowered URL path; the first hit
returns a rejection with confidence 0.9 (title) or 0.8 (path). -/
def negScan (titleLower path : String) : List String → Option (Bool × Confidence × String)
  | [] => none
  | k :: ks =>
    if pyIn k titleLower then
      some (false, 9, "Title contains non-cause list keyword: " ++ k)
    else if pyIn k path then
      some (false, 8, "URL path contains non-cause list keyword: " ++ k)
    else negScan titleLower path ks

/-- The second loop: cause-list keywords against the lowered title. -/
def posTitleScan (titleLower : String) : List String → Option (Bool × Confidence × String)
  | [] => none
  | k :: ks =>
    if pyIn k titleLower then
      some (true, 9, "Title contains cause list keyword: " ++ k)
    else posTitleScan titleLower ks

/-- The third loop: cause-list keywords against the lowered URL path. -/
def posPathScan (path : String) : List String → Option (Bool × Confidence × String)
  | [] => none
  | k :: ks =>
    if pyIn k path then
      some (true, 8, "URL path contains cause list keyword: " ++ k)
    else posPathScan path ks

/-- `DelhiHCScraper.is_likely_cause_list(url, title, content_type)`, returning
`(is_cause_list, confidence, reason)` with confidence in tenths (see
`Confidence`). -/
def is_likely_cause_list (url title : String) (content_type : Option String) :
    Bool × Confidence × String :=
  let title_lower := pyLower title
  let path := pyLower (urlparsePath url)
  match negScan title_lower path NON_CAUSE_LIST_KEYWORDS with
  | some r => r
  | none =>
  match posTitleScan title_lower CAUSE_LIST_KEYWORDS with
  | some r => r
  | none =>
  match posPathScan path CAUSE_LIST_KEYWORDS with
  | some r => r
  | none =>
  let ext := (osSplitext (urlparsePath url)).2
  if pyLower ext ≠ ".pdf" then
    (false, 7, "Not a PDF file: " ++ ext)
  else
    let ctNotPdf : Bool :=
      match content_type with
      | some ct => ct ≠ "" && !(pyIn "application/pdf" ct)
      | none => false
    if ctNotPdf then
      (false, 8, "Not a PDF content type: " ++ (content_type.getD ""))
    else if hasDatePattern url || hasDatePattern title then
      (true, 7, "Contains date pattern")
    else if pyLower ext = ".pdf" && hasLongDigitRun (osBasename url) then
      if matchesAllDigits (osSplitext (osBasename url)).1 then
        (true, 6, "PDF with numeric-only filename")
      else
        (true, 5, "PDF with numeric ID in filename")
    else
      (false, 3, "No clear indicators")

example :
    (is_likely_cause_list "https://x.nic.in/cl/Cause%20List%2012.06.2024.pdf"
      "Cause List 12.06.2024.pdf" none).1 = true := by decide
example :
    is_likely_cause_list "https://x.nic.in/vc/sop.pdf" "Video Conferencing SOP.pdf" none
      = (false, 9, "Title contains non-cause list keyword: video conferencing") := by
  decide
example :
    is_likely_cause_list "https://x.nic.in/files/20240612.pdf" "" none
      = (true, 6, "PDF with numeric-only filename") := by decide

/-! ## Lemmas about the negative-keyword scan -/

/-- If `negScan` hits, the overall classifier returns exactly its result. -/
theorem is_likely_eq_of_negScan (url title : String) (ct : Option String)
    (res : Bool × Confidence × String)
    (h : negScan (pyLower title) (pyLower (urlparsePath url)) NON_CAUSE_LIST_KEYWORDS
          = some res) :
    is_likely_cause_list url title ct = res := by
  unfold is_likely_cause_list
  simp only [h]

/-- Some keyword matching the title or the path makes `negScan` return a
rejection with confidence 0.9 or 0.8. -/
theorem negScan_some_of_hit (t p : String) :
    ∀ ks : List String, (∃ k ∈ ks, pyIn k t = true ∨ pyIn k p = true) →
      ∃ c r, negScan t p ks = some (false, c, r) ∧ (c = 9 ∨ c = 8) := by
  intro ks
  induction ks with
  | nil => rintro ⟨k, hk, -⟩; exact absurd hk (List.not_mem_nil k)
  | cons k0 ks ih =>
    rintro ⟨k, hk, hhit⟩
    by_cases h1 : pyIn k0 t
    · exact ⟨9, "Title contains non-cause list keyword: " ++ k0,
        by simp [negScan, h1], Or.inl rfl⟩
    · by_cases h2 : pyIn k0 p
      · exact ⟨8, "URL path contains non-cause list keyword: " ++ k0,
        by simp [negScan, h1, h2], Or.inr rfl⟩
      · rcases List.mem_cons.mp hk with rfl | hk'
        · rcases hhit with h | h
          · exact absurd h (by simp [h1])
          · exact absurd h (by simp [h2])
        · obtain ⟨c, r, hr, hc⟩ := ih ⟨k, hk', hhit⟩
          exact ⟨c, r, by simp [negScan, h1, h2, hr], hc⟩

/-- If no keyword matches the path but some keyword matches the title, the
scan rejects with confidence 0.9. -/
theorem negScan_title_only (t p : String) :
    ∀ ks : List String, (∀ k ∈ ks, pyIn k p = false) → (∃ k ∈ ks, pyIn k t = true) →
      ∃ r, negScan t p ks = some (false, 9, r) := by
  intro ks
  induction ks with
  | nil => rintro - ⟨k, hk, -⟩; exact absurd hk (List.not_mem_nil k)
  | cons k0 ks ih =>
    rintro hp ⟨k, hk, hhit⟩
    by_cases h1 : pyIn k0 t
    · exact ⟨"Title contains non-cause list keyword: " ++ k0, by simp [negScan, h1]⟩
    · have h2 : pyIn k0 p = false := hp k0 (List.mem_cons_self k0 ks)
      rcases List.mem_cons.mp hk with rfl | hk'
      · exact absurd hhit (by simp [h1])
      · obtain ⟨r, hr⟩ := ih (fun x hx => hp x (List.mem_cons_of_mem _ hx)) ⟨k, hk', hhit⟩
        exact ⟨r, by simp [negScan, h1, h2, hr]⟩

/-- If no keyword matches the title but some keyword matches the path, the
scan rejects with confidence 0.8. -/
theorem negScan_path_only (t p : String) :
    ∀ ks : List String, (∀ k ∈ ks, pyIn k t = false) → (∃ k ∈ ks, pyIn k p = true) →
      ∃ r, negScan t p ks = some (false, 8, r) := by
  intro ks
  induction ks with
  | nil => rintro - ⟨k, hk, -⟩; exact absurd hk (List.not_mem_nil k)
  | cons k0 ks ih =>
    rintro ht ⟨k, hk, hhit⟩
    have h1 : pyIn k0 t = false := ht k0 (List.mem_cons_self k0 ks)
    by_cases h2 : pyIn k0 p
    · exact ⟨"URL path contains non-cause list keyword: " ++ k0,
        by simp [negScan, h1, h2]⟩
    · rcases List.mem_cons.mp hk with rfl | hk'
      · exact absurd hhit (by simp [h2])
      · obtain ⟨r, hr⟩ := ih (fun x hx => ht x (List.mem_cons_of_mem _ hx)) ⟨k, hk', hhit⟩
        exact ⟨r, by simp [negScan, h1, h2, hr]⟩

/-- C3: if the anchor text contains both a cause-list keyword and a
non-cause-list keyword, the classifier rejects: the negative-keyword check
runs before any positive-keyword check. -/
theorem negative_shadows_positive (url title : String) (ct : Option String)
    (hpos : ∃ k ∈ CAUSE_LIST_KEYWORDS, pyIn k (pyLower title) = true)
    (hneg : ∃ k ∈ NON_CAUSE_LIST_KEYWORDS, pyIn k (pyLower title) = true) :
    (is_likely_cause_list url title ct).1 = false := by
  obtain ⟨k, hk, hh⟩ := hneg
  obtain ⟨c, r, hr, -⟩ :=
    negScan_some_of_hit (pyLower title) (pyLower (urlparsePath url))
      NON_CAUSE_LIST_KEYWORDS ⟨k, hk, Or.inl hh⟩
  rw [is_likely_eq_of_negScan url title ct _ hr]

/-- Witness for C3 at a concrete input: title "Cause List Help" has the
positive keyword "cause list" and the negative keyword "help"; the classifier
rejects. -/
theorem negative_shadows_positive_witness :
    (is_likely_cause_list "https://x.nic.in/a.pdf" "Cause List Help" none).1 = false :=
  negative_shadows_positive "https://x.nic.in/a.pdf" "Cause List Help" none
    ⟨"cause list", by decide, by decide⟩ ⟨"help", by decide, by decide⟩

/-- C4 counterexample: the anchor text "Notice Board" contains the negative
keyword "notice", yet the classifier returns confidence 0.8, not 0.9, because
the earlier-listed keyword "help" matches the URL path first. -/
theorem neg_keyword_conf_cex :
    "notice" ∈ NON_CAUSE_LIST_KEYWORDS ∧
    pyIn "notice" (pyLower "Notice Board") = true ∧
    is_likely_cause_list "https://delhihighcourt.nic.in/help/x.pdf" "Notice Board" none
      = (false, 8, "URL path contains non-cause list keyword: help") := by
  refine ⟨by decide, by decide, ?_⟩
  decide

/-- C4 as amended: a negative keyword in the anchor text forces a rejection
with confidence 0.9 or 0.8 (keywords are scanned in list order, anchor text
before URL path per keyword, so the 0.8 case arises when an earlier keyword
matches the path); if no keyword matches the path the confidence is 0.9, and
if no keyword matches the anchor text while some keyword matches the path the
confidence is 0.8. -/
theorem neg_keyword_confidences (url title : String) (ct : Option String) :
    ((∃ k ∈ NON_CAUSE_LIST_KEYWORDS, pyIn k (pyLower title) = true) →
      (is_likely_cause_list url title ct).1 = false ∧
      ((is_likely_cause_list url title ct).2.1 = 9 ∨
       (is_likely_cause_list url title ct).2.1 = 8)) ∧
    ((∀ k ∈ NON_CAUSE_LIST_KEYWORDS, pyIn k (pyLower (urlparsePath url)) = false) →
      (∃ k ∈ NON_CAUSE_LIST_KEYWORDS, pyIn k (pyLower title) = true) →
      (is_likely_cause_list url title ct).1 = false ∧
      (is_likely_cause_list url title ct).2.1 = 9) ∧
    ((∀ k ∈ NON_CAUSE_LIST_KEYWORDS, pyIn k (pyLower title) = false) →
      (∃ k ∈ NON_CAUSE_LIST_KEYWORDS, pyIn k (pyLower (urlparsePath url)) = true) →
      (is_likely_cause_list url title ct).1 = false ∧
      (is_likely_cause_list url title ct).2.1 = 8) := by
  refine ⟨?_, ?_, ?_⟩
  · rintro ⟨k, hk, hh⟩
    obtain ⟨c, r, hr, hc⟩ :=
      negScan_some_of_hit (pyLower title) (pyLower (urlparsePath url))
        NON_CAUSE_LIST_KEYWORDS ⟨k, hk, Or.inl hh⟩
    rw [is_likely_eq_of_negScan url title ct _ hr]
    exact ⟨rfl, hc⟩
  · intro hp hex
    obtain ⟨r, hr⟩ :=
      negScan_title_only (pyLower title) (pyLower (urlparsePath url))
        NON_CAUSE_LIST_KEYWORDS hp hex
    rw [is_likely_eq_of_negScan url title ct _ hr]
    exact ⟨rfl, rfl⟩
  · intro ht hex
    obtain ⟨r, hr⟩ :=
      negScan_path_only (pyLower title) (pyLower (urlparsePath url))
        NON_CAUSE_LIST_KEYWORDS ht hex
    rw [is_likely_eq_of_negScan url title ct _ hr]
    exact ⟨rfl, rfl⟩

/-- Witness for the amended C4: "Login Page" anchor text with a clean URL path
rejects with confidence 0.9; a "help" URL path with clean anchor text rejects
with confidence 0.8. -/
theorem neg_keyword_confidences_witness :
    ((is_likely_cause_list "https://x.nic.in/a.pdf" "Login Page" none).1 = false ∧
     (is_likely_cause_list "https://x.nic.in/a.pdf" "Login Page" none).2.1 = 9) ∧
    ((is_likely_cause_list "https://x.nic.in/help/a.pdf" "Daily Orders" none).1 = false ∧
     (is_likely_cause_list "https://x.nic.in/help/a.pdf" "Daily Orders" none).2.1 = 8) :=
  ⟨(neg_keyword_confidences "https://x.nic.in/a.pdf" "Login Page" none).2.1
      (by decide) ⟨"login", by decide, by decide⟩,
   (neg_keyword_confidences "https://x.nic.in/help/a.pdf" "Daily Orders" none).2.2
      (by decide) ⟨"help", by decide, by decide⟩⟩

/-! ## Dynamically-typed Python/JSON values -/

/-- A Python value as handled by the data processor: JSON values plus the
Python literals the source manipulates (`None`, booleans, ints, strings,
lists, dicts).  Dict fields keep insertion order, as Python dicts do. -/
inductive J where
  | null
  | bool (b : Bool)
  | num (n : Int)
  | str (s : String)
  | arr (xs : List J)
  | obj (fields : List (String × J))

mutual

def jDecEq : (a b : J) → Decidable (a = b)
  | .null, .null => isTrue rfl
  | .bool x, .bool y => if h : x = y then isTrue (by rw [h]) else isFalse (by simp [h])
  | .num x, .num y => if h : x = y then isTrue (by rw [h]) else isFalse (by simp [h])
  | .str x, .str y => if h : x = y then isTrue (by rw [h]) else isFalse (by simp [h])
  | .arr xs, .arr ys =>
    match jDecEqList xs ys with
    | isTrue h => isTrue (by rw [h])
    | isFalse h => isFalse (by simp [h])
  | .obj xs, .obj ys =>
    match jDecEqFields xs ys with
    | isTrue h => isTrue (by rw [h])
    | isFalse h => isFalse (by simp [h])
  | .null, .bool _ | .null, .num _ | .null, .str _ | .null, .arr _ | .null, .obj _
  | .bool _, .null | .bool _, .num _ | .bool _, .str _ | .bool _, .arr _ | .bool _, .obj _
  | .num _, .null | .num _, .bool _ | .num _, .str _ | .num _, .arr _ | .num _, .obj _
  | .str _, .null | .str _, .bool _ | .str _, .num _ | .str _, .arr _ | .str _, .obj _
  | .arr _, .null | .arr _, .bool _ | .arr _, .num _ | .arr _, .str _ | .arr _, .obj _
  | .obj _, .null | .obj _, .bool _ | .obj _, .num _ | .obj _, .str _ | .obj _, .arr _ =>
    isFalse (by intro h; exact J.noConfusion h)

def jDecEqList : (xs ys : List J) → Decidable (xs = ys)
  | [], [] => isTrue rfl
  | x :: xs, y :: ys =>
    match jDecEq x y, jDecEqList xs ys with
    | isTrue h1, isTrue h2 => isTrue (by rw [h1, h2])
    | isFalse h1, _ => isFalse (by simp [h1])
    | _, isFalse h2 => isFalse (by simp [h2])
  | [], _ :: _ => isFalse (by simp)
  | _ :: _, [] => isFalse (by simp)

def jDecEqFields : (xs ys : List (String × J)) → Decidable (xs = ys)
  | [], [] => isTrue rfl
  | (k1, v1) :: xs, (k2, v2) :: ys =>
    match decEq k1 k2, jDecEq v1 v2, jDecEqFields xs ys with
    | isTrue h0, isTrue h1, isTrue h2 => isTrue (by rw [h0, h1, h2])
    | isFalse h0, _, _ => isFalse (by simp [h0])
    | _, isFalse h1, _ => isFalse (by simp [h1])
    | _, _, isFalse h2 => isFalse (by simp [h2])
  | [], _ :: _ => isFalse (by simp)
  | _ :: _, [] => isFalse (by simp)

end

instance : DecidableEq J := jDecEq

/-- The exception classes the embedded code can raise.  Python's
`except Exception` catches every one of them; `except json.JSONDecodeError`
catches only `jsonDecodeError`. -/
inductive PyErr where
  | typeError
  | keyError
  | attributeError
  | valueError
  | jsonDecodeError
  | apiError
deriving DecidableEq

/-- Python truthiness of a value (`if x:`). -/
def pyTruthy : J → Bool
  | .null => false
  | .bool b => b
  | .num n => n ≠ 0
  | .str s => s ≠ ""
  | .arr xs => !xs.isEmpty
  | .obj fs => !fs.isEmpty

/-- Python `len(x)`; raises `TypeError` on values without a length. -/
def pyLen : J → Except PyErr Nat
  | .str s => .ok s.length
  | .arr xs => .ok xs.length
  | .obj fs => .ok fs.length
  | _ => .error .typeError

/-- Python `key in x` for a string key: dict key membership, list element
membership, substring test on strings; `TypeError` otherwise. -/
def pyContains (x : J) (key : String) : Except PyErr Bool :=
  match x with
  | .obj fs => .ok (fs.any (fun f => f.1 = key))
  | .arr xs => .ok (xs.contains (J.str key))
  | .str s => .ok (pyIn key s)
  | _ => .error .typeError

/-- Python `x[key] = v` for a string key: on dicts, replace the value in
place (keeping field order) or append a new field; `TypeError` otherwise. -/
def pySetItem (x : J) (key : String) (v : J) : Except PyErr J :=
  match x with
  | .obj fs =>
    if fs.any (fun f => f.1 = key) then
      .ok (.obj (fs.map (fun f => if f.1 = key then (f.1, v) else f)))
    else
      .ok (.obj (fs ++ [(key, v)]))
  | _ => .error .typeError

/-- Python `x[key]` for a string key: `KeyError` on a missing dict key,
`TypeError` on non-dicts. -/
def pyGetItem (x : J) (key : String) : Except PyErr J :=
  match x with
  | .obj fs =>
    match fs.find? (fun f => f.1 = key) with
    | some f => .ok f.2
    | none => .error .keyError
  | _ => .error .typeError

/-- Python `x.get(key, default)`: only dicts have `.get`; `AttributeError`
otherwise. -/
def pyGet (x : J) (key : String) (default : J) : Except PyErr J :=
  match x with
  | .obj fs =>
    match fs.find? (fun f => f.1 = key) with
    | some f => .ok f.2
    | none => .ok default
  | _ => .error .attributeError

/-- Python `for v in x`: the values a `for` loop iterates over — list
elements, string characters, dict keys; `TypeError` otherwise. -/
def pyIter : J → Except PyErr (List J)
  | .arr xs => .ok xs
  | .str s => .ok (s.data.map (fun c => J.str (String.mk [c])))
  | .obj fs => .ok (fs.map (fun f => J.str f.1))
  | _ => .error .typeError

/-- Whether a value is a Python dict (`isinstance(x, dict)`). -/
def J.isObj : J → Bool
  | .obj _ => true
  | _ => false

/-! ## The relational store (`src/db/connector.py`)

Tables are in-memory lists of rows; `INSERT` appends; surrogate ids come from
a single allocator `nextId` (fresh ids, like the serial/UUID columns of the
schema).  `SELECT`/`UPDATE`/`INSERT` execution is assumed to succeed;
columns that receive dynamically-typed Python values are typed `J`. -/

structure CourtRow where
  id : Nat
  code : String
deriving DecidableEq

structure BenchRow where
  id : Nat
  courtId : Nat
  benchNumber : String
  judges : J
deriving DecidableEq

structure CauseListRow where
  id : Nat
  courtId : Nat
  benchId : Nat
  listDate : Nat
  listType : String
  pdfUrl : Option String
  pdfPath : Option String
deriving DecidableEq

structure CaseRow where
  id : Nat
  causeListId : Nat
  caseNumber : J
  title : J
  itemNumber : J
  fileNumber : J
  petitionerAdv : J
  respondentAdv : J
deriving DecidableEq

structure TagRow where
  id : Nat
  name : J
deriving DecidableEq

structure DB where
  courts : List CourtRow
  benches : List BenchRow
  causeLists : List CauseListRow
  cases : List CaseRow
  tags : List TagRow
  caseTagMappings : List (Nat × Nat)
  nextId : Nat
deriving DecidableEq

/-- A `list_date` argument: `Union[str, date]`.  Dates themselves are modelled
as a chronologically ordered ordinal `Nat` (e.g. `y*10000 + m*100 + d`). -/
inductive DateInput where
  | str (s : String)
  | date (d : Nat)

/-- `datetime.strptime(s, "%Y-%m-%d").date()`: `YYYY-MM-DD` with 4-digit year
and 1-2 digit month/day in range, returning the date ordinal; `none` models
the `ValueError` raised on malformed input.  (Month-specific day maxima are
not modelled; no claim exercises string-typed dates.) -/
def strptimeYMD (s : String) : Option Nat :=
  match s.split (· = '-') with
  | [y, m, d] =>
    if y.data.length = 4 && y.data.all (·.isDigit) &&
       0 < m.data.length && m.data.length ≤ 2 && m.data.all (·.isDigit) &&
       0 < d.data.length && d.data.length ≤ 2 && d.data.all (·.isDigit) then
      let yn := y.toNat!
      let mn := m.toNat!
      let dn := d.toNat!
      if 1 ≤ mn && mn ≤ 12 && 1 ≤ dn && dn ≤ 31 then
        some (yn * 10000 + mn * 100 + dn)
      else none
    else none
  | _ => none

/-- Resolve a `Union[str, date]` argument as the source's
`isinstance(list_date, str)` branch does. -/
def resolveDate : DateInput → Option Nat
  | .date d => some d
  | .str s => strptimeYMD s

/-- `DBConnector.get_court_id`. -/
def get_court_id (db : DB) (courtCode : String) : Option Nat :=
  (db.courts.find? (fun c => c.code == courtCode)).map (·.id)

/-- `DBConnector.get_bench_id`: normalize the bench number (strip + upper) and
look it up; a non-string bench number raises `AttributeError` inside the
method's own `try/except`, which returns `None`. -/
def get_bench_id (db : DB) (courtId : Nat) (benchNumber : J) : Option Nat :=
  match benchNumber with
  | .str s =>
    let bn := pyUpper (pyStrip s)
    (db.benches.find? (fun b => b.courtId == courtId && b.benchNumber == bn)).map (·.id)
  | _ => none

/-- `DBConnector.create_bench`: normalize the bench number and insert,
returning the new id; a non-string bench number raises inside the method's
`try/except`, which returns `None`. -/
def create_bench (db : DB) (courtId : Nat) (benchNumber : J) (judges : J) :
    Option Nat × DB :=
  match benchNumber with
  | .str s =>
    let bn := pyUpper (pyStrip s)
    let bid := db.nextId
    (some bid,
     { db with benches := db.benches ++ [⟨bid, courtId, bn, judges⟩],
               nextId := db.nextId + 1 })
  | _ => (none, db)

/-- The natural-key `WHERE` clause of `create_cause_list`'s lookup:
`court_id = %s AND bench_id = %s AND list_date = %s AND list_type = %s`. -/
def clKeyMatch (c b dd : Nat) (ty : String) (r : CauseListRow) : Bool :=
  r.courtId == c && r.benchId == b && r.listDate == dd && r.listType == ty

/-- `DBConnector.create_cause_list`: look up by the natural key
`(court_id, bench_id, list_date, list_type)`; on a hit, update `pdf_url` and
`pdf_path` by SQL `COALESCE(new, old)` — but only when `pdf_url or pdf_path`
is truthy (a non-empty string); on a miss, insert.  A malformed string date
raises `ValueError`, caught by the method's `try/except` → `None`. -/
def create_cause_list (db : DB) (courtId benchId : Nat) (listDate : DateInput)
    (listType : String) (pdfUrl pdfPath : Option String) : Option Nat × DB :=
  match resolveDate listDate with
  | none => (none, db)
  | some d =>
    match db.causeLists.find? (clKeyMatch courtId benchId d listType) with
    | some row =>
      if pdfUrl.getD "" ≠ "" || pdfPath.getD "" ≠ "" then
        (some row.id,
         { db with causeLists := db.causeLists.map (fun r =>
             if r.id == row.id then
               { r with
                 pdfUrl := (match pdfUrl with | some u => some u | none => r.pdfUrl),
                 pdfPath := (match pdfPath with | some p => some p | none => r.pdfPath) }
             else r) })
      else (some row.id, db)
    | none =>
      let cid := db.nextId
      (some cid,
       { db with
         causeLists := db.causeLists ++ [⟨cid, courtId, benchId, d, listType, pdfUrl, pdfPath⟩],
         nextId := db.nextId + 1 })

/-- `DBConnector.get_or_create_tag`. -/
def get_or_create_tag (db : DB) (tagName : J) : Option Nat × DB :=
  match db.tags.find? (fun t => t.name == tagName) with
  | some t => (some t.id, db)
  | none =>
    let tid := db.nextId
    (some tid, { db with tags := db.tags ++ [⟨tid, tagName⟩], nextId := db.nextId + 1 })

/-- The tag-attachment phase of `create_case`: `if tags and len(tags) > 0`,
then resolve each tag (per-tag failures are swallowed), then insert the
`(case_id, tag_id)` pairings with `ON CONFLICT DO NOTHING`.  An untyped
`tags` value without `len`/iteration raises, reaching `create_case`'s outer
`except`; the row inserts already committed are kept. -/
def addCaseTags (db : DB) (caseId : Nat) (tags : J) : Except PyErr Unit × DB :=
  if !pyTruthy tags then (.ok (), db)
  else
    match pyLen tags with
    | .error e => (.error e, db)
    | .ok n =>
      if n > 0 then
        match pyIter tags with
        | .error e => (.error e, db)
        | .ok items =>
          let step := fun (acc : List (Nat × Nat) × DB) (tagName : J) =>
            let (tid?, db') := get_or_create_tag acc.2 tagName
            match tid? with
            | some tid => (acc.1 ++ [(caseId, tid)], db')
            | none => (acc.1, db')
          let res := items.foldl step ([], db)
          let insert := fun (d : DB) (m : Nat × Nat) =>
            if d.caseTagMappings.contains m then d
            else { d with caseTagMappings := d.caseTagMappings ++ [m] }
          (.ok (), res.1.foldl insert res.2)
      else (.ok (), db)

/-- `DBConnector.create_case`: look up by `(cause_list_id, case_number)`; on a
hit return the existing id untouched (first write wins); on a miss insert the
row, then attach tags.  Any exception in the tag phase hits the outer
`except` → `None` (the inserted row remains, as each statement committed). -/
def create_case (db : DB) (causeListId : Nat) (caseNumber : J)
    (title itemNumber fileNumber petitionerAdv respondentAdv : J) (tags : J) :
    Option Nat × DB :=
  match db.cases.find? (fun c =>
      c.causeListId == causeListId && c.caseNumber == caseNumber) with
  | some c => (some c.id, db)
  | none =>
    let cid := db.nextId
    let db1 := { db with
      cases := db.cases ++
        [⟨cid, causeListId, caseNumber, title, itemNumber, fileNumber,
          petitionerAdv, respondentAdv⟩],
      nextId := db.nextId + 1 }
    match addCaseTags db1 cid tags with
    | (.ok _, db2) => (some cid, db2)
    | (.error _, db2) => (none, db2)

/-! ## C1: repeated `create_case` on the same natural key is a no-op -/

/-- `get_or_create_tag` never touches the `cases` table. -/
theorem get_or_create_tag_cases (db : DB) (tn : J) :
    (get_or_create_tag db tn).2.cases = db.cases := by
  unfold get_or_create_tag
  cases db.tags.find? (fun t => t.name == tn) <;> rfl

/-- The tag-attachment phase never touches the `cases` table. -/
theorem addCaseTags_cases (db : DB) (cid : Nat) (tags : J) :
    (addCaseTags db cid tags).2.cases = db.cases := by
  unfold addCaseTags
  by_cases h1 : (!pyTruthy tags) = true
  · rw [if_pos h1]
  · rw [if_neg h1]
    cases hl : pyLen tags with
    | error e => rfl
    | ok n =>
      simp only
      by_cases h2 : n > 0
      · rw [if_pos h2]
        cases hi : pyIter tags with
        | error e => rfl
        | ok items =>
          simp only
          have hfold : ∀ (its : List J) (acc : List (Nat × Nat)) (d : DB),
              (its.foldl (fun acc tagName =>
                match (get_or_create_tag acc.2 tagName).1 with
                | some tid => (acc.1 ++ [(cid, tid)], (get_or_create_tag acc.2 tagName).2)
                | none => (acc.1, (get_or_create_tag acc.2 tagName).2)) (acc, d)).2.cases
                = d.cases := by
            intro its
            induction its with
            | nil => intro acc d; rfl
            | cons hd tl ih =>
              intro acc d
              simp only [List.foldl_cons]
              have hc := get_or_create_tag_cases d hd
              cases hg : (get_or_create_tag d hd).1 <;> simp only [hg] <;>
                rw [ih] <;> exact hc
          have hins : ∀ (ms : List (Nat × Nat)) (d : DB),
              (ms.foldl (fun d m =>
                if d.caseTagMappings.contains m then d
                else { d with caseTagMappings := d.caseTagMappings ++ [m] }) d).cases
                = d.cases := by
            intro ms
            induction ms with
            | nil => intro d; rfl
            | cons m ms ih =>
              intro d
              simp only [List.foldl_cons]
              rw [ih]
              split <;> rfl
          simp only [hins, hfold]
      · rw [if_neg h2]

/-- On a natural-key hit, `create_case` returns the existing id and leaves the
database untouched. -/
theorem create_case_hit (db : DB) (clid : Nat) (cn t i f p r tg : J) (row : CaseRow)
    (h : db.cases.find? (fun c => c.causeListId == clid && c.caseNumber == cn) = some row) :
    create_case db clid cn t i f p r tg = (some row.id, db) := by
  unfold create_case
  rw [h]

/-- After any `create_case` call, a row with the call's natural key is present
(found by the same lookup the source performs). -/
theorem create_case_row_exists (db : DB) (clid : Nat) (cn t i f p r tg : J) :
    ∃ row, ((create_case db clid cn t i f p r tg).2).cases.find?
        (fun c => c.causeListId == clid && c.caseNumber == cn) = some row := by
  rcases h : db.cases.find? (fun c => c.causeListId == clid && c.caseNumber == cn) with
    _ | row
  · -- miss: the freshly inserted row is found
    unfold create_case
    rw [h]
    simp only
    rcases ht : addCaseTags
        { db with
          cases := db.cases ++ [⟨db.nextId, clid, cn, t, i, f, p, r⟩],
          nextId := db.nextId + 1 } db.nextId tg with ⟨res, db2⟩
    have hc : db2.cases = db.cases ++ [⟨db.nextId, clid, cn, t, i, f, p, r⟩] := by
      have h' := addCaseTags_cases
        { db with
          cases := db.cases ++ [⟨db.nextId, clid, cn, t, i, f, p, r⟩],
          nextId := db.nextId + 1 } db.nextId tg
      rw [ht] at h'
      exact h'
    refine ⟨⟨db.nextId, clid, cn, t, i, f, p, r⟩, ?_⟩
    cases res <;> simp only <;> rw [hc, List.find?_append, h] <;>
      simp [List.find?]
  · exact ⟨row, by rw [create_case_hit db clid cn t i f p r tg row h, h]⟩

/-- C1: calling `create_case` a second time with the same
`(cause_list_id, case_number)` — whatever the title, item number, file number,
advocate and tag arguments of either call — returns the id of the existing
row, inserts no row and modifies nothing (first write wins), so repeating an
ingestion leaves the `cases` row count unchanged. -/
theorem create_case_rerun_noop (db : DB) (clid : Nat)
    (cn t1 i1 f1 p1 r1 tg1 t2 i2 f2 p2 r2 tg2 : J) :
    ∃ row,
      ((create_case db clid cn t1 i1 f1 p1 r1 tg1).2).cases.find?
          (fun c => c.causeListId == clid && c.caseNumber == cn) = some row ∧
      create_case ((create_case db clid cn t1 i1 f1 p1 r1 tg1).2) clid cn
          t2 i2 f2 p2 r2 tg2
        = (some row.id, (create_case db clid cn t1 i1 f1 p1 r1 tg1).2) ∧
      ((create_case ((create_case db clid cn t1 i1 f1 p1 r1 tg1).2) clid cn
          t2 i2 f2 p2 r2 tg2).2).cases.length
        = ((create_case db clid cn t1 i1 f1 p1 r1 tg1).2).cases.length := by
  obtain ⟨row, hrow⟩ := create_case_row_exists db clid cn t1 i1 f1 p1 r1 tg1
  have h2 := create_case_hit ((create_case db clid cn t1 i1 f1 p1 r1 tg1).2) clid cn
      t2 i2 f2 p2 r2 tg2 row hrow
  exact ⟨row, hrow, h2, by rw [h2]⟩

/-! ## C2: `create_cause_list` coalesce-update on the natural key -/

/-- An empty database, used for concrete witnesses. -/
def emptyDB : DB := ⟨[], [], [], [], [], [], 0⟩

/-- C2 counterexample: two calls supply the different non-null `pdf_url`
values `"http://x/a.pdf"` and `""`; the surviving row's `pdf_url` is the value
supplied FIRST, because the update is guarded by Python truthiness
(`if pdf_url or pdf_path:`) and the empty string is falsy. -/
theorem cause_list_url_last_write_cex :
    ((create_cause_list
        (create_cause_list emptyDB 1 1 (.date 20240612) "Daily List"
          (some "http://x/a.pdf") none).2
        1 1 (.date 20240612) "Daily List" (some "") none).2).causeLists.map (·.pdfUrl)
      = [some "http://x/a.pdf"] ∧
    some ("" : String) ≠ some "http://x/a.pdf" := by
  constructor
  · rfl
  · decide

/-- On a natural-key miss, `create_cause_list` inserts a fresh row carrying
exactly the supplied URL and path. -/
theorem create_cause_list_miss (db : DB) (c b d : Nat) (ty : String)
    (pu pp : Option String)
    (h : db.causeLists.find? (clKeyMatch c b d ty) = none) :
    create_cause_list db c b (.date d) ty pu pp
      = (some db.nextId,
         { db with
           causeLists := db.causeLists ++ [⟨db.nextId, c, b, d, ty, pu, pp⟩],
           nextId := db.nextId + 1 }) := by
  simp only [create_cause_list, resolveDate]
  rw [h]

/-- On a natural-key hit with only a non-empty URL supplied, the row's URL is
overwritten and its path is kept (`COALESCE`). -/
theorem create_cause_list_hit_url (db : DB) (c b d : Nat) (ty : String)
    (u : String) (row : CauseListRow)
    (h : db.causeLists.find? (clKeyMatch c b d ty) = some row)
    (hu : u ≠ "") :
    create_cause_list db c b (.date d) ty (some u) none
      = (some row.id,
         { db with causeLists := db.causeLists.map (fun r =>
             if r.id == row.id then { r with pdfUrl := some u } else r) }) := by
  simp only [create_cause_list, resolveDate]
  rw [h]
  simp [hu]

/-- On a natural-key hit with only a non-empty path supplied, the row's path
is overwritten and its URL is kept (`COALESCE`). -/
theorem create_cause_list_hit_path (db : DB) (c b d : Nat) (ty : String)
    (p : String) (row : CauseListRow)
    (h : db.causeLists.find? (clKeyMatch c b d ty) = some row)
    (hp : p ≠ "") :
    create_cause_list db c b (.date d) ty none (some p)
      = (some row.id,
         { db with causeLists := db.causeLists.map (fun r =>
             if r.id == row.id then { r with pdfPath := some p } else r) }) := by
  simp only [create_cause_list, resolveDate]
  rw [h]
  simp [hp]

/-- C2 as amended: restricted to truthy (non-empty) strings the claim holds.
Starting with no row at the key `(c, b, d, ty)`: (A) a call with only a
non-empty URL followed by a call with only a non-empty path leaves exactly one
row at the key, with both URL and path populated, neither overwritten by
null; (B) two calls with `pdf_url` values `u1` then `u2` (`u2` non-empty)
leave exactly one row at the key whose `pdf_url` is the value supplied last.
(The original claim fails when the later value is the empty string — non-null
but falsy — because the truthiness guard `if pdf_url or pdf_path:` skips the
coalesce update entirely; see the counterexample.) -/
theorem cause_list_coalesce_update (db : DB) (c b d : Nat) (ty : String)
    (u p u1 u2 : String)
    (h0 : ∀ r ∈ db.causeLists, clKeyMatch c b d ty r = false)
    (hu : u ≠ "") (hp : p ≠ "") (hu2 : u2 ≠ "") :
    ((create_cause_list
        (create_cause_list db c b (.date d) ty (some u) none).2
        c b (.date d) ty none (some p)).2).causeLists.filter (clKeyMatch c b d ty)
      = [⟨db.nextId, c, b, d, ty, some u, some p⟩] ∧
    ((create_cause_list
        (create_cause_list db c b (.date d) ty (some u1) none).2
        c b (.date d) ty (some u2) none).2).causeLists.filter (clKeyMatch c b d ty)
      = [⟨db.nextId, c, b, d, ty, some u2, none⟩] := by
  have hfindnone : db.causeLists.find? (clKeyMatch c b d ty) = none := by
    rw [List.find?_eq_none]
    intro x hx
    simp [h0 x hx]
  have hkeyrow : ∀ (pu pp : Option String),
      clKeyMatch c b d ty ⟨db.nextId, c, b, d, ty, pu, pp⟩ = true := by
    intro pu pp; simp [clKeyMatch]
  have hnilmap : ∀ (upd : CauseListRow → CauseListRow),
      (∀ r, clKeyMatch c b d ty (upd r) = clKeyMatch c b d ty r) →
      (db.causeLists.map upd).filter (clKeyMatch c b d ty) = [] := by
    intro upd hupd
    rw [List.filter_eq_nil]
    intro a ha
    obtain ⟨r, hr, rfl⟩ := List.mem_map.mp ha
    rw [hupd]
    simp [h0 r hr]
  constructor
  · -- (A) URL-only call, then path-only call
    rw [create_cause_list_miss db c b d ty (some u) none hfindnone]
    have hfind1 : (db.causeLists ++ [(⟨db.nextId, c, b, d, ty, some u, none⟩ :
        CauseListRow)]).find? (clKeyMatch c b d ty)
        = some ⟨db.nextId, c, b, d, ty, some u, none⟩ := by
      rw [List.find?_append, hfindnone, Option.none_or,
        List.find?_cons_of_pos _ (hkeyrow (some u) none)]
    rw [create_cause_list_hit_path _ c b d ty p _ hfind1 hp]
    simp only [List.map_append, List.filter_append]
    rw [hnilmap _ (by intro r; split <;> rfl)]
    simp [hkeyrow, clKeyMatch]
  · -- (B) URL u1, then URL u2
    rw [create_cause_list_miss db c b d ty (some u1) none hfindnone]
    have hfind1 : (db.causeLists ++ [(⟨db.nextId, c, b, d, ty, some u1, none⟩ :
        CauseListRow)]).find? (clKeyMatch c b d ty)
        = some ⟨db.nextId, c, b, d, ty, some u1, none⟩ := by
      rw [List.find?_append, hfindnone, Option.none_or,
        List.find?_cons_of_pos _ (hkeyrow (some u1) none)]
    rw [create_cause_list_hit_url _ c b d ty u2 _ hfind1 hu2]
    simp only [List.map_append, List.filter_append]
    rw [hnilmap _ (by intro r; split <;> rfl)]
    simp [hkeyrow, clKeyMatch]

/-- Witness for the amended C2 at concrete inputs: an empty database, court 1,
bench 1, date 2024-06-12, a URL-then-path pair and a url1-then-url2 pair. -/
theorem cause_list_coalesce_update_witness :
    ((create_cause_list
        (create_cause_list emptyDB 1 1 (.date 20240612) "Daily List"
          (some "http://x/a.pdf") none).2
        1 1 (.date 20240612) "Daily List" none (some "/data/a.pdf")).2).causeLists.filter
        (clKeyMatch 1 1 20240612 "Daily List")
      = [⟨0, 1, 1, 20240612, "Daily List", some "http://x/a.pdf", some "/data/a.pdf"⟩] ∧
    ((create_cause_list
        (create_cause_list emptyDB 1 1 (.date 20240612) "Daily List"
          (some "http://x/a.pdf") none).2
        1 1 (.date 20240612) "Daily List" (some "http://y/b.pdf") none).2).causeLists.filter
        (clKeyMatch 1 1 20240612 "Daily List")
      = [⟨0, 1, 1, 20240612, "Daily List", some "http://y/b.pdf", none⟩] :=
  cause_list_coalesce_update emptyDB 1 1 20240612 "Daily List"
    "http://x/a.pdf" "/data/a.pdf" "http://x/a.pdf" "http://y/b.pdf"
    (by intro r hr; exact absurd hr (List.not_mem_nil r))
    (by decide) (by decide) (by decide)

/-! ## C9: the read operations (`get_available_dates`, `get_cause_lists_by_date`) -/

/-- `DBConnector.get_available_dates`: unknown court → `[]`; otherwise the
distinct `list_date` values of the court's cause lists in descending order
(`SELECT DISTINCT list_date ... ORDER BY list_date DESC`).  Dates are returned
as ordinals; the source renders them `%Y-%m-%d`, an order-preserving
injective formatting. -/
def get_available_dates (db : DB) (courtCode : String) : List Nat :=
  match get_court_id db courtCode with
  | none => []
  | some cid =>
    List.insertionSort (· ≥ ·)
      (((db.causeLists.filter (fun cl => cl.courtId == cid)).map (·.listDate)).dedup)

/-- The sort key used to model `ORDER BY c.item_number` over the
dynamically-typed `item_number` column (a string in every reachable row; the
claims do not depend on this ordering). -/
def jStrKey : J → String
  | .str s => s
  | .null => ""
  | .bool b => toString b
  | .num n => toString n
  | .arr _ => ""
  | .obj _ => ""

/-- One case row of a `get_cause_lists_by_date` result, with its tags. -/
structure FCase where
  id : Nat
  itemNumber : J
  caseNumber : J
  title : J
  fileNumber : J
  petitionerAdv : J
  respondentAdv : J
  tags : List J
deriving DecidableEq

/-- One formatted cause list of a `get_cause_lists_by_date` result. -/
structure FCauseList where
  court : String
  courtNo : String
  bench : J
  cases : List FCase
deriving DecidableEq

/-- `DBConnector.get_cause_lists_by_date`: parse the date (a malformed string
date raises `ValueError`, uncaught in this method); unknown court → `[]`;
otherwise join the court's cause lists of that date with their benches,
ordered by bench number (`ORDER BY cb.bench_number`), each with its cases
ordered by item number and each case with its tag names.  (The source's early
`return []` when the join is empty equals mapping over the empty list.) -/
def get_cause_lists_by_date (db : DB) (courtCode : String) (listDate : DateInput) :
    Except PyErr (List FCauseList) :=
  match resolveDate listDate with
  | none => .error .valueError
  | some d =>
    match get_court_id db courtCode with
    | none => .ok []
    | some cid =>
      let rows := (db.causeLists.filter
          (fun cl => cl.courtId == cid && cl.listDate == d)).filterMap
        (fun cl => (db.benches.find? (fun bb => bb.id == cl.benchId)).map
          (fun bb => (cl, bb)))
      let sorted := List.insertionSort
        (fun x y : CauseListRow × BenchRow => x.2.benchNumber ≤ y.2.benchNumber) rows
      .ok (sorted.map (fun rb =>
        let cases := List.insertionSort
          (fun x y : CaseRow => jStrKey x.itemNumber ≤ jStrKey y.itemNumber)
          (db.cases.filter (fun cc => cc.causeListId == rb.1.id))
        { court := "DELHI HIGH COURT",
          courtNo := rb.2.benchNumber,
          bench := rb.2.judges,
          cases := cases.map (fun cc =>
            { id := cc.id, itemNumber := cc.itemNumber, caseNumber := cc.caseNumber,
              title := cc.title, fileNumber := cc.fileNumber,
              petitionerAdv := cc.petitionerAdv, respondentAdv := cc.respondentAdv,
              tags := (db.caseTagMappings.filter (fun m => m.1 == cc.id)).filterMap
                (fun m => (db.tags.find? (fun t => t.id == m.2)).map (·.name)) }) }))

instance : IsTotal (CauseListRow × BenchRow)
    (fun x y => x.2.benchNumber ≤ y.2.benchNumber) :=
  ⟨fun a b => le_total a.2.benchNumber b.2.benchNumber⟩

instance : IsTrans (CauseListRow × BenchRow)
    (fun x y => x.2.benchNumber ≤ y.2.benchNumber) :=
  ⟨fun _ _ _ hab hbc => le_trans hab hbc⟩

/-- C9: both read operations tolerate an unknown court code by returning an
empty result rather than raising; `get_available_dates` is sorted in
descending date order, and a `get_cause_lists_by_date` result is sorted by
bench number ascending. -/
theorem read_ops_ordered (db : DB) (courtCode : String) (d : Nat) :
    (get_court_id db courtCode = none →
      get_available_dates db courtCode = [] ∧
      get_cause_lists_by_date db courtCode (.date d) = .ok []) ∧
    List.Sorted (· ≥ ·) (get_available_dates db courtCode) ∧
    (∀ r, get_cause_lists_by_date db courtCode (.date d) = .ok r →
      List.Sorted (· ≤ ·) (r.map (·.courtNo))) := by
  refine ⟨?_, ?_, ?_⟩
  · intro h
    constructor
    · unfold get_available_dates; rw [h]
    · unfold get_cause_lists_by_date; simp only [resolveDate]; rw [h]
  · unfold get_available_dates
    cases get_court_id db courtCode with
    | none => exact List.sorted_nil
    | some cid => exact List.sorted_insertionSort _ _
  · intro r hr
    unfold get_cause_lists_by_date at hr
    simp only [resolveDate] at hr
    cases hcid : get_court_id db courtCode with
    | none =>
      rw [hcid] at hr
      obtain rfl : ([] : List FCauseList) = r := by
        simpa using hr
      exact List.sorted_nil
    | some cid =>
      rw [hcid] at hr
      simp only [Except.ok.injEq] at hr
      subst hr
      rw [List.map_map]
      have hs := List.sorted_insertionSort
        (fun x y : CauseListRow × BenchRow => x.2.benchNumber ≤ y.2.benchNumber)
        ((db.causeLists.filter
          (fun cl => cl.courtId == cid && cl.listDate == d)).filterMap
          (fun cl => (db.benches.find? (fun bb => bb.id == cl.benchId)).map
            (fun bb => (cl, bb))))
      unfold List.Sorted
      rw [List.pairwise_map]
      exact hs

/-- Witness for C9 at a concrete input: the empty database has no court row
for code "xx", and both reads return empty (hence sorted) results. -/
theorem read_ops_ordered_witness :
    (get_available_dates emptyDB "xx" = [] ∧
     get_cause_lists_by_date emptyDB "xx" (.date 20240612) = .ok []) ∧
    List.Sorted (· ≤ ·) (([] : List FCauseList).map (·.courtNo)) :=
  ⟨(read_ops_ordered emptyDB "xx" 20240612).1 rfl,
   (read_ops_ordered emptyDB "xx" 20240612).2.2 [] rfl⟩

/-! ## The downloader (`BaseScraper.download_file`, `src/utils/scraper_utils.py`)

The network is two oracles: `head` (the `Content-Type` header of a HEAD
request, `none` when the request raises) and `get` (the GET response, `none`
when the request raises or `raise_for_status` fires).  The file system is an
association list from paths to contents.  `hashlib.md5` digests are modelled
as the hashed bytes themselves (an ideal collision-free digest). -/

/-- A successful GET response: body plus the headers the source reads. -/
structure HttpResponse where
  body : String
  contentType : Option String
  contentLength : Option String
  lastModified : Option String

/-- One entry of `self.metadata`. -/
structure MetaEntry where
  url : String
  filename : String
  filepath : String
  hash : String
  contentType : Option String
  contentLength : Option String
  lastModified : Option String
  downloadTime : String
deriving DecidableEq

/-- The mutable per-run state of `BaseScraper` that `download_file` touches:
`self.downloaded_urls`, `self.downloaded_hashes`, `self.metadata`, and the
file system under the output directory. -/
structure ScrState where
  downloadedUrls : List String
  downloadedHashes : List String
  metadata : List MetaEntry
  fs : List (String × String)
deriving DecidableEq

/-- The ideal content digest standing in for `hashlib.md5(...).hexdigest()`. -/
def md5Digest (s : String) : String := s

/-- The filename-resolution prefix of `download_file`: the given filename, or
the basename of the URL path (or the URL digest if that is empty); cleaned;
with an extension appended from the HEAD `Content-Type` when it has none.
`none` models the HEAD request raising. -/
def resolveFilename (head : String → Option String) (url : String)
    (filename : Option String) : Option String :=
  let fn0 :=
    match filename with
    | some f => f
    | none =>
      let b := osBasename (urlparsePath url)
      if b = "" then md5Digest url else b
  let fn1 := clean_filename fn0
  if (osSplitext fn1).2 = "" then
    match head url with
    | none => none
    | some ct =>
      let ct := pyLower ct
      some (fn1 ++
        (if pyIn "application/pdf" ct then ".pdf"
         else if pyIn "text/html" ct then ".html"
         else if pyIn "application/json" ct then ".json"
         else if pyIn "text/plain" ct then ".txt"
         else ".bin"))
  else some fn1

/-- The outcome of `download_file`: a normal return (`ok`) or a raised
`DownloadError`. -/
inductive DlResult where
  | ok (path : Option String)
  | raised
deriving DecidableEq

/-- `BaseScraper.download_file(url, filename, output_dir)`.  In order:
URL-level dedupe; filename resolution (HEAD request only when the filename
lacks an extension); existing-file short-circuit; GET; write to disk; hash
dedupe (delete the just-written file); record URL, hash and metadata.
`now` stands for `datetime.now().isoformat()`. -/
def download_file (head : String → Option String) (get : String → Option HttpResponse)
    (now : String) (s : ScrState) (url : String) (filename : Option String)
    (outputDir : String) : DlResult × ScrState :=
  if s.downloadedUrls.contains url then
    (.ok none, s)
  else
    match resolveFilename head url filename with
    | none => (.raised, s)
    | some fn =>
      let filepath := outputDir ++ "/" ++ fn
      if (s.fs.lookup filepath).isSome then
        (.ok (some filepath), { s with downloadedUrls := s.downloadedUrls ++ [url] })
      else
        match get url with
        | none => (.raised, s)
        | some resp =>
          let hashDigest := md5Digest resp.body
          let s1 := { s with fs := s.fs ++ [(filepath, resp.body)] }
          if s1.downloadedHashes.contains hashDigest then
            (.ok none, { s1 with fs := s1.fs.filter (fun e => e.1 ≠ filepath) })
          else
            (.ok (some filepath),
             { s1 with
               downloadedUrls := s1.downloadedUrls ++ [url],
               downloadedHashes := s1.downloadedHashes ++ [hashDigest],
               metadata := s1.metadata ++
                 [⟨url, fn, filepath, hashDigest, resp.contentType,
                   resp.contentLength, resp.lastModified, now⟩] })

/-- The empty scraper run state, for concrete witnesses. -/
def emptyScr : ScrState := ⟨[], [], [], []⟩

/-- If a `lookup` misses, no entry of the association list bears that key. -/
theorem lookup_none_keys {l : List (String × String)} {a : String}
    (h : l.lookup a = none) : ∀ e ∈ l, e.1 ≠ a := by
  induction l with
  | nil => intro e he; exact absurd he (List.not_mem_nil e)
  | cons hd tl ih =>
    intro e he
    rw [List.lookup_cons] at h
    cases hk : (a == hd.1) with
    | true => rw [hk] at h; simp at h
    | false =>
      rw [hk] at h
      have h' : List.lookup a tl = none := h
      rcases List.mem_cons.mp he with rfl | he'
      · simp only [beq_eq_false_iff_ne] at hk
        exact fun hc => hk hc.symm
      · exact ih h' e he'

/-- The fresh-download path of `download_file`: new URL, resolvable filename,
no file at the target path, successful GET, unseen content hash.  The file is
written, and the URL, hash and a metadata entry are recorded. -/
theorem download_file_fresh (head : String → Option String)
    (get : String → Option HttpResponse) (now : String) (s : ScrState)
    (url : String) (fn : Option String) (outputDir n : String) (r : HttpResponse)
    (hu : s.downloadedUrls.contains url = false)
    (hr : resolveFilename head url fn = some n)
    (hf : s.fs.lookup (outputDir ++ "/" ++ n) = none)
    (hg : get url = some r)
    (hh : s.downloadedHashes.contains (md5Digest r.body) = false) :
    download_file head get now s url fn outputDir
      = (.ok (some (outputDir ++ "/" ++ n)),
         { s with
           downloadedUrls := s.downloadedUrls ++ [url],
           downloadedHashes := s.downloadedHashes ++ [md5Digest r.body],
           metadata := s.metadata ++
             [⟨url, n, outputDir ++ "/" ++ n, md5Digest r.body, r.contentType,
               r.contentLength, r.lastModified, now⟩],
           fs := s.fs ++ [(outputDir ++ "/" ++ n, r.body)] }) := by
  unfold download_file
  rw [hu, hr]
  simp [hf, hg, hh]
  simpa using hh

/-- The duplicate-hash path of `download_file`: as in the fresh path but the
content hash was already seen; the just-written file is deleted and nothing is
recorded (the state is unchanged except for the transient write). -/
theorem download_file_dup_hash (head : String → Option String)
    (get : String → Option HttpResponse) (now : String) (s : ScrState)
    (url : String) (fn : Option String) (outputDir n : String) (r : HttpResponse)
    (hu : s.downloadedUrls.contains url = false)
    (hr : resolveFilename head url fn = some n)
    (hf : s.fs.lookup (outputDir ++ "/" ++ n) = none)
    (hg : get url = some r)
    (hh : s.downloadedHashes.contains (md5Digest r.body) = true) :
    download_file head get now s url fn outputDir
      = (.ok none,
         { s with
           fs := (s.fs ++ [(outputDir ++ "/" ++ n, r.body)]).filter
             (fun e => e.1 ≠ outputDir ++ "/" ++ n) }) := by
  unfold download_file
  rw [hu, hr]
  simp [hf, hg, hh]
  simpa using hh

/-- C8: a URL already in the run's seen-URL set is never re-downloaded: the
call returns `None` without touching the network (the result does not depend
on the `head`/`get` oracles) and leaves the seen-URL set, the seen-hash set,
the metadata list and the file system unchanged. -/
theorem download_file_seen_url (head : String → Option String)
    (get : String → Option HttpResponse) (now : String) (s : ScrState)
    (url : String) (fn : Option String) (outputDir : String)
    (h : s.downloadedUrls.contains url = true) :
    download_file head get now s url fn outputDir = (.ok none, s) := by
  unfold download_file
  rw [h]
  simp

/-- Witness for C8 at a concrete input: a state that has already seen the URL. -/
theorem download_file_seen_url_witness :
    download_file (fun _ => none) (fun _ => none) "t"
      ⟨["http://x/a.pdf"], [], [], []⟩ "http://x/a.pdf" none "data" = (.ok none,
      ⟨["http://x/a.pdf"], [], [], []⟩) :=
  download_file_seen_url (fun _ => none) (fun _ => none) "t"
    ⟨["http://x/a.pdf"], [], [], []⟩ "http://x/a.pdf" none "data" (by decide)

/-- C10: when the computed target path already exists on disk, `download_file`
skips the GET entirely (the result does not depend on the `get` oracle or the
clock), adds the URL to the seen-URL set, and returns the existing path —
while recording no content hash and appending no metadata entry. -/
theorem download_file_existing_path (head : String → Option String)
    (get : String → Option HttpResponse) (now : String) (s : ScrState)
    (url : String) (fn : Option String) (outputDir n : String)
    (h1 : s.downloadedUrls.contains url = false)
    (h2 : resolveFilename head url fn = some n)
    (h3 : (s.fs.lookup (outputDir ++ "/" ++ n)).isSome = true) :
    download_file head get now s url fn outputDir
      = (.ok (some (outputDir ++ "/" ++ n)),
         { s with downloadedUrls := s.downloadedUrls ++ [url] }) := by
  unfold download_file
  rw [h1, h2]
  simp only [Bool.false_eq_true, if_false, h3, if_true]

/-- Witness for C10 at a concrete input: the target file `data/x.pdf` already
exists; the URL is recorded as seen, the path returned, and hash set and
metadata stay empty whatever the `get` oracle would have answered. -/
theorem download_file_existing_path_witness :
    download_file (fun _ => none) (fun _ => none) "t"
      ⟨[], [], [], [("data/x.pdf", "OLDBYTES")]⟩ "http://x/x.pdf" none "data"
      = (.ok (some "data/x.pdf"),
         ⟨["http://x/x.pdf"], [], [], [("data/x.pdf", "OLDBYTES")]⟩) :=
  download_file_existing_path (fun _ => none) (fun _ => none) "t"
    ⟨[], [], [], [("data/x.pdf", "OLDBYTES")]⟩ "http://x/x.pdf" none "data" "x.pdf"
    (by decide) (by decide) (by decide)

/-- `lookup` distributes over append, preferring the left list. -/
theorem lookup_append_str (a : String) (l1 l2 : List (String × String)) :
    (l1 ++ l2).lookup a = (l1.lookup a).or (l2.lookup a) := by
  induction l1 with
  | nil => simp
  | cons hd tl ih =>
    rw [List.cons_append, List.lookup_cons, List.lookup_cons]
    cases hk : (a == hd.1) with
    | true => rfl
    | false => simpa using ih

/-- Filtering for keys different from `a` keeps a list none of whose keys is
`a`. -/
theorem filter_keys_ne {l : List (String × String)} {a : String}
    (h : ∀ e ∈ l, e.1 ≠ a) : l.filter (fun e => e.1 ≠ a) = l := by
  induction l with
  | nil => rfl
  | cons hd tl ih =>
    rw [List.filter_cons]
    rw [if_pos (by simpa using h hd (List.mem_cons_self hd tl))]
    rw [ih (fun e he => h e (List.mem_cons_of_mem hd he))]

/-- C7 counterexample: the two distinct URLs `http://a.example/x.pdf` and
`http://b.example/x.pdf` are served byte-identical content, but share the
basename `x.pdf`; the second download hits the file-already-exists branch
before any hash check and returns the existing path — not `None` as the claim
requires. -/
theorem download_content_dedupe_cex :
    "http://a.example/x.pdf" ≠ "http://b.example/x.pdf" ∧
    (download_file (fun _ => none) (fun _ => some ⟨"PDFBYTES", none, none, none⟩) "t2"
      (download_file (fun _ => none) (fun _ => some ⟨"PDFBYTES", none, none, none⟩) "t1"
        emptyScr "http://a.example/x.pdf" none "data").2
      "http://b.example/x.pdf" none "data").1 = .ok (some "data/x.pdf") ∧
    DlResult.ok (some "data/x.pdf") ≠ DlResult.ok none := by
  refine ⟨by decide, by decide, by decide⟩

/-- C7 as amended: for two distinct URLs serving byte-identical content WHOSE
RESOLVED TARGET FILE PATHS DIFFER, downloading both in one run retains exactly
one file and records exactly one metadata entry: the second download's content
hash is found in the seen-hash set, its just-written file is deleted, and the
call returns `None` — the run state after the second call is exactly the state
after the first.  (When the two URLs resolve to the same path, the second call
instead returns that path from the file-already-exists branch; see the
counterexample.) -/
theorem download_content_dedupe (head : String → Option String)
    (get : String → Option HttpResponse) (now1 now2 : String) (s : ScrState)
    (u1 u2 outputDir n1 n2 : String) (r1 r2 : HttpResponse)
    (hu1 : s.downloadedUrls.contains u1 = false)
    (hu2 : s.downloadedUrls.contains u2 = false)
    (hne : u1 ≠ u2)
    (hr1 : resolveFilename head u1 none = some n1)
    (hr2 : resolveFilename head u2 none = some n2)
    (hfp : outputDir ++ "/" ++ n1 ≠ outputDir ++ "/" ++ n2)
    (hg1 : get u1 = some r1) (hg2 : get u2 = some r2)
    (hbody : r1.body = r2.body)
    (hf1 : s.fs.lookup (outputDir ++ "/" ++ n1) = none)
    (hf2 : s.fs.lookup (outputDir ++ "/" ++ n2) = none)
    (hh : s.downloadedHashes.contains (md5Digest r1.body) = false) :
    (download_file head get now1 s u1 none outputDir).1
        = .ok (some (outputDir ++ "/" ++ n1)) ∧
    ((download_file head get now1 s u1 none outputDir).2).downloadedHashes.contains
        (md5Digest r2.body) = true ∧
    download_file head get now2 (download_file head get now1 s u1 none outputDir).2
        u2 none outputDir
      = (.ok none, (download_file head get now1 s u1 none outputDir).2) ∧
    ((download_file head get now1 s u1 none outputDir).2).fs
        = s.fs ++ [(outputDir ++ "/" ++ n1, r1.body)] ∧
    ((download_file head get now1 s u1 none outputDir).2).metadata.length
        = s.metadata.length + 1 := by
  have hc1 := download_file_fresh head get now1 s u1 none outputDir n1 r1
    hu1 hr1 hf1 hg1 hh
  rw [hc1]
  set s1 : ScrState :=
    { s with
      downloadedUrls := s.downloadedUrls ++ [u1],
      downloadedHashes := s.downloadedHashes ++ [md5Digest r1.body],
      metadata := s.metadata ++
        [⟨u1, n1, outputDir ++ "/" ++ n1, md5Digest r1.body, r1.contentType,
          r1.contentLength, r1.lastModified, now1⟩],
      fs := s.fs ++ [(outputDir ++ "/" ++ n1, r1.body)] } with hs1
  have hu2' : s1.downloadedUrls.contains u2 = false := by
    rw [hs1]
    have h1 : u2 ∉ s.downloadedUrls := by simpa using hu2
    simp [h1]
    exact fun hc => hne hc.symm
  have hf2' : s1.fs.lookup (outputDir ++ "/" ++ n2) = none := by
    rw [hs1]
    simp only [lookup_append_str, hf2, Option.none_or, List.lookup_cons]
    rw [show ((outputDir ++ "/" ++ n2) == (outputDir ++ "/" ++ n1)) = false from
      by simpa using fun hc => hfp hc.symm]
    rfl
  have hh2' : s1.downloadedHashes.contains (md5Digest r2.body) = true := by
    rw [hs1]
    simp [← hbody]
  have hc2 := download_file_dup_hash head get now2 s1 u2 none outputDir n2 r2
    hu2' hr2 hf2' hg2 hh2'
  refine ⟨rfl, hh2', ?_, by rw [hs1], by rw [hs1]; simp⟩
  rw [hc2]
  have hkeys : ∀ e ∈ s1.fs, e.1 ≠ outputDir ++ "/" ++ n2 := by
    rw [hs1]
    intro e he
    rcases List.mem_append.mp he with he' | he'
    · exact lookup_none_keys hf2 e he'
    · rcases List.mem_singleton.mp he' with rfl
      exact hfp
  have hfs : (s1.fs ++ [(outputDir ++ "/" ++ n2, r2.body)]).filter
      (fun e => e.1 ≠ outputDir ++ "/" ++ n2) = s1.fs := by
    rw [List.filter_append, filter_keys_ne hkeys]
    simp
  rw [hfs]

/-- Witness for the amended C7 at concrete inputs: two URLs with different
basenames served identical bytes; the first call returns the written path. -/
theorem download_content_dedupe_witness :
    (download_file (fun _ => none) (fun _ => some ⟨"PDFBYTES", none, none, none⟩) "t1"
      emptyScr "http://a.example/x.pdf" none "data").1
      = .ok (some ("data" ++ "/" ++ "x.pdf")) ∧
    download_file (fun _ => none) (fun _ => some ⟨"PDFBYTES", none, none, none⟩) "t2"
      (download_file (fun _ => none) (fun _ => some ⟨"PDFBYTES", none, none, none⟩) "t1"
        emptyScr "http://a.example/x.pdf" none "data").2
      "http://b.example/y.pdf" none "data"
      = (.ok none,
         (download_file (fun _ => none) (fun _ => some ⟨"PDFBYTES", none, none, none⟩) "t1"
           emptyScr "http://a.example/x.pdf" none "data").2) :=
  let h := download_content_dedupe (fun _ => none)
    (fun _ => some ⟨"PDFBYTES", none, none, none⟩) "t1" "t2" emptyScr
    "http://a.example/x.pdf" "http://b.example/y.pdf" "data" "x.pdf" "y.pdf"
    ⟨"PDFBYTES", none, none, none⟩ ⟨"PDFBYTES", none, none, none⟩
    (by decide) (by decide) (by decide) (by decide) (by decide) (by decide)
    rfl rfl rfl (by decide) (by decide) (by decide)
  ⟨h.1, h.2.2.1⟩

/-! ## The structurer (`CauseListProcessor`, `src/utils/data_processor.py`)

`json.loads` is an oracle `String → Except Unit J`; the two Gemini calls are
oracles for the response text; `datetime.now()` is the `today` parameter.
The `re` patterns of `_extract_structured_data` and `process_pdf` are
modelled below, each by a direct matcher for that one pattern. -/

/-- The apostrophe character, used by the judge-title pattern. -/
def apos : Char := '\x27'

/-- `re.search(r'COURT NO\.\s*(\d+)', markdown, re.IGNORECASE)`: at the first
position where `COURT NO.` (case-insensitively) is followed by optional
whitespace and at least one digit, return the digit run (group 1). -/
def courtNoTryAt (l : List Char) : Option String :=
  if (l.take 9).map Char.toLower = "court no.".data then
    let rest := (l.drop 9).dropWhile pyIsSpace
    let ds := rest.takeWhile Char.isDigit
    if ds.isEmpty then none else some ⟨ds⟩
  else none

/-- Scan for the leftmost `COURT NO\.\s*(\d+)` match. -/
def courtNoSearch : List Char → Option String
  | [] => none
  | c :: cs =>
    match courtNoTryAt (c :: cs) with
    | some ds => some ds
    | none => courtNoSearch cs

/-- The literal `HON'BLE`. -/
def honBle : List Char := ['H', 'O', 'N', apos, 'B', 'L', 'E']

/-- The minimal `.*?` tail of the judge-title pattern: all characters up to
the lookahead `(?=\n\n|\Z)` (a blank line or the end of the text). -/
def takeUntilBlankLine : List Char → List Char
  | [] => []
  | '\n' :: '\n' :: _ => []
  | c :: cs => c :: takeUntilBlankLine cs

/-- `re.search(r"(HON'BLE.*?)(?=\n\n|\Z)", markdown, re.DOTALL)`: from the
first occurrence of `HON'BLE`, the shortest stretch ending at a blank line or
at the end of the text (group 1, unstripped). -/
def benchSearch : List Char → Option String
  | [] => none
  | c :: cs =>
    if honBle.isPrefixOf (c :: cs) then
      some ⟨honBle ++ takeUntilBlankLine ((c :: cs).drop 7)⟩
    else benchSearch cs

/-- Index of the last `\n` within a list, if any. -/
def lastNlIdx : List Char → Option Nat
  | [] => none
  | c :: cs =>
    match lastNlIdx cs with
    | some i => some (i + 1)
    | none => if c = '\n' then some 0 else none

/-- Index of the last non-`\n` character within a list, if any. -/
def lastNonNlIdx : List Char → Option Nat
  | [] => none
  | c :: cs =>
    match lastNonNlIdx cs with
    | some i => some (i + 1)
    | none => if c ≠ '\n' then some 0 else none

/-- The trailing `\s*([^\n]+)` of the manual-extraction pattern, with its
greedy backtracking: consume the longest whitespace prefix after which a
non-newline character follows, then capture the maximal non-newline run. -/
def group3Match (l : List Char) : Option (List Char × List Char) :=
  let w := l.takeWhile pyIsSpace
  let rest := l.dropWhile pyIsSpace
  match rest with
  | c :: _ =>
    -- c is not whitespace, hence not a newline: capture from here
    let g := rest.takeWhile (· ≠ '\n')
    some (g, rest.dropWhile (· ≠ '\n'))
  | [] =>
    -- backtrack into the whitespace run for a non-newline character
    match lastNonNlIdx w with
    | none => none
    | some j =>
      let fromJ := l.drop j
      some (fromJ.takeWhile (· ≠ '\n'), fromJ.dropWhile (· ≠ '\n'))

/-- One attempt of the manual-extraction pattern
`(\d+)\.\s+\*\*([^*]+)\*\*\s*\n\s*\*\s*([^\n]+)` at the head of the list;
on success, the case dict the source builds from the three groups, and the
rest of the input after the match. -/
def tryMatchCase (l : List Char) : Option (J × List Char) :=
  let ds := l.takeWhile Char.isDigit
  if ds.isEmpty then none else
  match l.dropWhile Char.isDigit with
  | '.' :: l2 =>
    if (l2.takeWhile pyIsSpace).isEmpty then none else
    match l2.dropWhile pyIsSpace with
    | '*' :: '*' :: l4 =>
      let body := l4.takeWhile (· ≠ '*')
      if body.isEmpty then none else
      (match l4.dropWhile (· ≠ '*') with
      | '*' :: '*' :: l6 =>
        -- `\s*\n`: up to and including the last newline of the whitespace run
        match lastNlIdx (l6.takeWhile pyIsSpace) with
        | none => none
        | some j =>
          match (l6.drop (j + 1)).dropWhile pyIsSpace with
          | '*' :: l9 =>
            match group3Match l9 with
            | none => none
            | some (g3, rest) =>
              some (J.obj
                [("caseNumber", .str (pyStrip ⟨body⟩)),
                 ("title", .str (pyStrip ⟨g3⟩)),
                 ("itemNumber", .str ⟨ds⟩),
                 ("tags", .arr []),
                 ("causeList", .str "Daily List"),
                 ("petitionerAdv", .str ""),
                 ("respondentAdv", .str ""),
                 ("fileNumber", .str "")], rest)
          | _ => none
      | _ => none)
    | _ => none
  | _ => none

/-- `re.finditer` over the manual-extraction pattern: scan left to right,
emitting non-overlapping matches.  The fuel argument bounds the recursion;
every step advances by at least one character (a match always consumes its
leading digit), so fuel equal to the input length is exact. -/
def scanCasesAux : Nat → List Char → List J
  | 0, _ => []
  | _ + 1, [] => []
  | n + 1, c :: cs =>
    match tryMatchCase (c :: cs) with
    | some (j, rest) => j :: scanCasesAux n rest
    | none => scanCasesAux n cs

/-- The manual case-extraction pass of `_extract_structured_data`: the case
dicts built from each match of the numbered-item pattern. -/
def manualCases (markdown : String) : List J :=
  scanCasesAux markdown.data.length markdown.data

example : manualCases "hello" = [] := by decide
example :
    manualCases "1. **W.P.(C) 123/2024**\n  * A Vs. B\n" =
      [J.obj
        [("caseNumber", .str "W.P.(C) 123/2024"),
         ("title", .str "A Vs. B"),
         ("itemNumber", .str "1"),
         ("tags", .arr []),
         ("causeList", .str "Daily List"),
         ("petitionerAdv", .str ""),
         ("respondentAdv", .str ""),
         ("fileNumber", .str "")]] := by decide

/-- The response-cleaning prefix of `_extract_structured_data`: strip, remove
a leading ```` ```json ```` fence (7 characters) and a trailing ```` ``` ````
fence (3 characters), strip again. -/
def cleanRespText (t : String) : String :=
  let l := (pyStrip t).data
  let l := if "```json".data.isPrefixOf l then l.drop 7 else l
  let l := if "```".data.reverse.isPrefixOf l.reverse then l.take (l.length - 3) else l
  pyStrip ⟨l⟩

example : cleanRespText " ```json\n{}\n``` " = "{}" := by decide

/-- The placeholder the source synthesizes when the first array element is not
a dict. -/
def placeholderObj : J :=
  .obj [("court", .str "DELHI HIGH COURT"), ("courtNo", .str "UNKNOWN"),
        ("bench", .str "UNKNOWN"), ("cases", .arr [])]

/-- One `if "k" not in structured_data: structured_data["k"] = v` step. -/
def ensureKey (sd : J) (key : String) (v : J) : Except PyErr J :=
  match pyContains sd key with
  | .error e => .error e
  | .ok true => .ok sd
  | .ok false => pySetItem sd key v

/-- The backfill default for `courtNo`. -/
def courtNoDefault (markdown : String) : J :=
  match courtNoSearch markdown.data with
  | some ds => .str ("COURT NO. " ++ ds)
  | none => .str "UNKNOWN"

/-- The backfill default for `bench` (the matched group, stripped). -/
def benchDefault (markdown : String) : J :=
  match benchSearch markdown.data with
  | some g => .str (pyStrip g)
  | none => .str "UNKNOWN"

/-- The tail of `_extract_structured_data`'s normalization: read
`structured_data["cases"]`, and when no cases were extracted, append the
manual-extraction results.  Dynamic-typing errors propagate as `PyErr` to the
caller's `except Exception`. -/
def finalizeCases (sd5 : J) (markdown : String) : Except PyErr J :=
  match pyGetItem sd5 "cases" with
  | .error e => .error e
  | .ok cv =>
  match pyLen cv with
  | .error e => .error e
  | .ok n =>
  if n = 0 then
    match cv with
    | .arr ys => pySetItem sd5 "cases" (.arr (ys ++ manualCases markdown))
    | _ =>
      -- a non-list with `len` 0: `.append` on it raises at the first match
      if (manualCases markdown).isEmpty then .ok sd5 else .error .attributeError
  else .ok sd5

/-- The post-parse normalization of `_extract_structured_data`: array
handling, key backfills, and the manual-extraction fallback. -/
def postProcess (sd0 : J) (markdown : String) : Except PyErr J :=
  let sd1 :=
    match sd0 with
    | .arr (x :: _) => (match x with | .obj _ => x | _ => placeholderObj)
    | _ => sd0
  match ensureKey sd1 "court" (.str "DELHI HIGH COURT") with
  | .error e => .error e
  | .ok sd2 =>
  match ensureKey sd2 "courtNo" (courtNoDefault markdown) with
  | .error e => .error e
  | .ok sd3 =>
  match ensureKey sd3 "bench" (benchDefault markdown) with
  | .error e => .error e
  | .ok sd4 =>
  match ensureKey sd4 "cases" (.arr []) with
  | .error e => .error e
  | .ok sd5 => finalizeCases sd5 markdown

/-- The body of `_extract_structured_data` before its outer `except` handler:
the Gemini call (`none` models it raising), fence cleaning, `json.loads`
(whose `JSONDecodeError` handler returns `None`), and the normalization. -/
def extractBody (parse : String → Except Unit J) (respText : Option String)
    (markdown : String) : Except PyErr (Option J) :=
  match respText with
  | none => .error .apiError
  | some raw =>
    match parse (cleanRespText raw) with
    | .error _ => .ok none
    | .ok sd0 =>
      match postProcess sd0 markdown with
      | .ok d => .ok (some d)
      | .error e => .error e

/-- `CauseListProcessor._extract_structured_data`: the body wrapped in the
outer `except Exception`, which returns `None`. -/
def extract_structured_data (parse : String → Except Unit J) (respText : Option String)
    (markdown : String) : Except PyErr (Option J) :=
  match extractBody parse respText markdown with
  | .ok v => .ok v
  | .error _ => .ok none

/-- `re.search(r'(\d{4}-\d{2}-\d{2})', path)`: the leftmost `dddd-dd-dd`
substring. -/
def ymdAt : List Char → Option (List Char)
  | a :: b :: c :: d :: '-' :: e :: f :: '-' :: g :: h :: _ =>
    if [a, b, c, d, e, f, g, h].all Char.isDigit then
      some [a, b, c, d, '-', e, f, '-', g, h]
    else none
  | _ => none

/-- Scan for the leftmost date-shaped substring. -/
def searchYMD : List Char → Option String
  | [] => none
  | c :: cs =>
    match ymdAt (c :: cs) with
    | some m => some ⟨m⟩
    | none => searchYMD cs

example : searchYMD "data/delhi_hc/2024-06-12/x.pdf".data = some "2024-06-12" := by decide

/-- `fields.get(k, default)` on a dict already known to be a dict. -/
def jGetD (fs : List (String × J)) (k : String) (v : J) : J :=
  match fs.find? (fun f => f.1 = k) with
  | some f => f.2
  | none => v

/-- The per-case body of `_store_data_in_db`'s loop, inner `try/except`
included: a missing or falsy `caseNumber` (or a non-dict case, whose `.get`
raises `AttributeError`) skips the case; otherwise `create_case` runs with the
case's fields. -/
def storeCaseStep (causeListId : Nat) (db : DB) (case : J) : DB :=
  match case with
  | .obj cfs =>
    let caseNumber := jGetD cfs "caseNumber" .null
    if !pyTruthy caseNumber then db
    else
      (create_case db causeListId caseNumber
        (jGetD cfs "title" .null) (jGetD cfs "itemNumber" .null)
        (jGetD cfs "fileNumber" .null) (jGetD cfs "petitionerAdv" .null)
        (jGetD cfs "respondentAdv" .null) (jGetD cfs "tags" (.arr []))).2
  | _ => db

/-- `CauseListProcessor._store_data_in_db`: validation, bench resolution,
cause-list upsert, then the per-case loop.  Its `try/except Exception`
converts an uncaught error (e.g. iterating a non-iterable `cases` value) into
a `False` result with the state reached so far. -/
def store_data_in_db (db : DB) (courtId : Nat) (data : J) (listDate : String)
    (pdfPath pdfUrl : Option String) : Bool × DB :=
  match data with
  | .obj fs =>
    if !(fs.any (fun f => f.1 = "courtNo")) || !(fs.any (fun f => f.1 = "bench")) then
      (false, db)
    else
      let courtNo := jGetD fs "courtNo" (.str "UNKNOWN")
      let benchName := jGetD fs "bench" (.str "UNKNOWN")
      let (benchId?, db1) :=
        match get_bench_id db courtId courtNo with
        | some bid => (some bid, db)
        | none => create_bench db courtId courtNo benchName
      match benchId? with
      | none => (false, db1)
      | some bid =>
        match create_cause_list db1 courtId bid (.str listDate) "Daily List"
            pdfUrl pdfPath with
        | (none, db2) => (false, db2)
        | (some clid, db2) =>
          let cases := jGetD fs "cases" (.arr [])
          match pyIter cases with
          | .error _ => (false, db2)
          | .ok items => (true, items.foldl (storeCaseStep clid) db2)
  | _ => (false, db)

/-- `CauseListProcessor.process_pdf`: derive the list date from the path (or
the current date), run the two extraction passes, store the result.  Failures
return `None`; the outer `except Exception` also returns `None`. -/
def process_pdf (parse : String → Except Unit J) (gemini : Except PyErr (Option String))
    (respText : Option String) (today : String) (db : DB) (courtId : Nat)
    (pdfPath : String) (pdfUrl : Option String) : Except PyErr (Option J) × DB :=
  let listDate :=
    match searchYMD pdfPath.data with
    | some s => s
    | none => today
  match gemini with
  | .error _ => (.ok none, db)
  | .ok none => (.ok none, db)
  | .ok (some md) =>
    if md = "" then (.ok none, db)
    else
      match extract_structured_data parse respText md with
      | .error _ => (.ok none, db)
      | .ok none => (.ok none, db)
      | .ok (some sd) =>
        ((.ok (some sd)),
         (store_data_in_db db courtId sd listDate (some pdfPath) pdfUrl).2)

/-! ## C5 and C6: structurer behavior on malformed extraction output -/

/-- Whether an `Except` result is a normal return. -/
def exceptIsOk {α : Type} : Except PyErr α → Bool
  | .ok _ => true
  | .error _ => false

/-- A successful `pySetItem` yields a dict. -/
theorem pySetItem_ok_isObj (x : J) (k : String) (v d : J)
    (h : pySetItem x k v = .ok d) : d.isObj = true := by
  cases x with
  | obj fs =>
    simp only [pySetItem] at h
    split at h <;> (simp only [Except.ok.injEq] at h; exact h ▸ rfl)
  | null => simp [pySetItem] at h
  | bool b => simp [pySetItem] at h
  | num n => simp [pySetItem] at h
  | str s => simp [pySetItem] at h
  | arr xs => simp [pySetItem] at h

/-- A successful `pyGetItem` was performed on a dict. -/
theorem pyGetItem_ok_isObj (x : J) (k : String) (v : J)
    (h : pyGetItem x k = .ok v) : x.isObj = true := by
  cases x with
  | obj fs => rfl
  | null => simp [pyGetItem] at h
  | bool b => simp [pyGetItem] at h
  | num n => simp [pyGetItem] at h
  | str s => simp [pyGetItem] at h
  | arr xs => simp [pyGetItem] at h

/-- Every dict `finalizeCases` returns really is a dict. -/
theorem finalizeCases_isObj (sd5 : J) (markdown : String) (d : J)
    (h : finalizeCases sd5 markdown = .ok d) : d.isObj = true := by
  unfold finalizeCases at h
  cases hg : pyGetItem sd5 "cases" with
  | error e => simp only [hg] at h; simp at h
  | ok cv =>
    have hobj := pyGetItem_ok_isObj _ _ _ hg
    simp only [hg] at h
    cases hl : pyLen cv with
    | error e => simp only [hl] at h; simp at h
    | ok n =>
      simp only [hl] at h
      split at h
      · split at h
        · exact pySetItem_ok_isObj _ _ _ _ h
        · split at h
          · simp only [Except.ok.injEq] at h
            exact h ▸ hobj
          · simp at h
      · simp only [Except.ok.injEq] at h
        exact h ▸ hobj

/-- Every dict `postProcess` returns really is a dict. -/
theorem postProcess_isObj (sd0 : J) (markdown : String) (d : J)
    (h : postProcess sd0 markdown = .ok d) : d.isObj = true := by
  simp only [postProcess] at h
  split at h
  · simp at h
  · split at h
    · simp at h
    · split at h
      · simp at h
      · split at h
        · simp at h
        · exact finalizeCases_isObj _ _ _ h

/-- C6: the structurer never propagates an exception: for every parser
behavior, response shape and markdown text, `_extract_structured_data`
terminates normally with a dict or `None` (every `some` result is a dict),
and `process_pdf` terminates normally for every state of its collaborators. -/
theorem structurer_never_raises (parse : String → Except Unit J)
    (respText : Option String) (markdown : String)
    (gemini : Except PyErr (Option String)) (today : String) (db : DB)
    (courtId : Nat) (pdfPath : String) (pdfUrl : Option String) :
    exceptIsOk (extract_structured_data parse respText markdown) = true ∧
    (∀ d, extract_structured_data parse respText markdown = .ok (some d) →
      d.isObj = true) ∧
    exceptIsOk (process_pdf parse gemini respText today db courtId pdfPath pdfUrl).1
      = true := by
  refine ⟨?_, ?_, ?_⟩
  · unfold extract_structured_data
    split <;> rfl
  · intro d hd
    unfold extract_structured_data at hd
    split at hd
    case _ v heq =>
      obtain rfl : v = some d := by simpa using hd
      unfold extractBody at heq
      split at heq
      · exact absurd heq (by simp)
      case _ raw =>
        split at heq
        · exact absurd heq (by simp)
        case _ sd0 hparse =>
          split at heq
          case _ d' hpost =>
            obtain rfl : d' = d := by simpa using heq
            exact postProcess_isObj _ _ _ hpost
          · exact absurd heq (by simp)
    · exact absurd hd (by simp)
  · unfold process_pdf
    cases gemini with
    | error e => rfl
    | ok md? =>
      cases md? with
      | none => rfl
      | some md =>
        by_cases hmd : md = "" <;> simp only [hmd, if_true, if_false] <;>
          try rfl
        split <;> rfl

/-- C5 counterexample: a response whose parsed top-level JSON is the EMPTY
array does not yield a placeholder object — the list skips the first-element
branch, `structured_data["court"] = ...` then raises `TypeError` on the list,
and the catch-all returns `None`. -/
theorem array_response_cex :
    extract_structured_data (fun _ => .ok (J.arr [])) (some "[]") "" = .ok none ∧
    (Except.ok (none : Option J) : Except PyErr (Option J)) ≠ .ok (some placeholderObj) := by
  constructor
  · rfl
  · intro hc
    simp at hc

/-- C5 as amended: when the parsed top-level JSON is a NONEMPTY array, the
structurer takes the first element — behaving exactly as if the parse had
returned that element — and when that element is still not an object it
proceeds with the synthesized placeholder (court "DELHI HIGH COURT", courtNo
and bench "UNKNOWN") whose cases are those recovered by the manual markdown
extraction (empty when the markdown has no numbered-item pattern).  An EMPTY
top-level array instead raises internally and the call returns `None` (see
the counterexample). -/
theorem array_response_amended (parse : String → Except Unit J)
    (raw markdown : String) (x : J) (xs : List J) :
    (parse (cleanRespText raw) = .ok (J.arr (x :: xs)) → x.isObj = true →
      extract_structured_data parse (some raw) markdown
        = extract_structured_data (fun _ => .ok x) (some raw) markdown) ∧
    (parse (cleanRespText raw) = .ok (J.arr (x :: xs)) → x.isObj = false →
      extract_structured_data parse (some raw) markdown
        = .ok (some (J.obj
            [("court", .str "DELHI HIGH COURT"), ("courtNo", .str "UNKNOWN"),
             ("bench", .str "UNKNOWN"), ("cases", .arr (manualCases markdown))]))) ∧
    (parse (cleanRespText raw) = .ok (J.arr []) →
      extract_structured_data parse (some raw) markdown = .ok none) := by
  refine ⟨?_, ?_, ?_⟩
  · intro hp hx
    cases x <;> simp only [J.isObj] at hx <;> try exact absurd hx (by decide)
    simp only [extract_structured_data, extractBody, hp]
    rfl
  · intro hp hx
    cases x <;> simp only [J.isObj] at hx <;> try exact absurd hx (by decide)
    all_goals
      simp only [extract_structured_data, extractBody, hp]
      rfl
  · intro hp
    simp only [extract_structured_data, extractBody, hp]
    rfl

/-- Witness for the amended C5 at a concrete input: the parse yields
`[5]`, whose first element is not an object; the markdown "hello" has no
numbered-item pattern, so the result is the placeholder with empty cases. -/
theorem array_response_amended_witness :
    extract_structured_data (fun _ => .ok (J.arr [J.num 5])) (some "x") "hello"
      = .ok (some (J.obj
          [("court", .str "DELHI HIGH COURT"), ("courtNo", .str "UNKNOWN"),
           ("bench", .str "UNKNOWN"), ("cases", .arr [])])) :=
  (array_response_amended (fun _ => .ok (J.arr [J.num 5])) "x" "hello"
    (J.num 5) []).2.1 rfl rfl
